import Mathlib

/-!
# Verification of the jpcs-raffle realtime raffle protocol

Shallow embedding of the raffle code: the shared `State` enum, the
`PublicData` record and `pickRandomElement` helper from `lib/supabase.ts`,
the admin action handlers (`handleStartDraw`, `handlePickWinner`,
`handleResetRaffle`), the derived `userList`, the admin setup routine
`setupAdminSubscription`, and the change-event handlers of the admin and
client pages.  Randomness (`Math.random()`) is modelled by a rational
parameter `rnd` with contract `0 ≤ rnd < 1`; JavaScript string falsiness
(`!x` true for `undefined` and `""`) is modelled explicitly.
-/

set_option linter.unusedVariables false

namespace JpcsRaffle

/-- The raffle lifecycle states, from the `State` enum in `lib/supabase.ts`. -/
inductive State where
  | WAITING
  | DRAWING
  | DRAWN
  | ERROR
deriving DecidableEq, Repr

/-- The canonical raffle record (`PublicData` in `lib/supabase.ts`).
`winner = none` models SQL `NULL` / a missing field. -/
structure PublicData where
  id : Nat
  created_at : String
  state : State
  winner : Option String
deriving DecidableEq, Repr

/-- `RAFFLE_ID` constant: the single raffle row targeted by all queries. -/
def RAFFLE_ID : Nat := 1

/-- A `{state, winner}` patch as passed to
`supabase.from("public_data").update({...})` by the admin handlers. -/
structure StorePatch where
  state : State
  winner : Option String
deriving DecidableEq, Repr

/-- One presence entry as delivered by the realtime bus
(`PresenceStateForUser` in `lib/supabase.ts`). -/
structure PresenceStateForUser where
  user : String
  online_at : String
  presence_ref : String
deriving DecidableEq, Repr

/-- JavaScript truthiness test `!x` for a value of type `string | undefined`:
true exactly when `x` is `undefined` or the empty string `""`. -/
def jsFalsyStr (x : Option String) : Bool :=
  x == none || x == some ""

/-- The index computed by `Math.floor(Math.random() * arr.length)` in
`pickRandomElement`; `rnd` stands for the value returned by `Math.random()`
(whose contract is `0 ≤ rnd < 1`). -/
def randomIndex (rnd : ℚ) (len : Nat) : Nat :=
  (Int.floor (rnd * (len : ℚ))).toNat

/-- `pickRandomElement` from `lib/supabase.ts`.  A `none` array models a
`null`/`undefined` argument (rejected by the `!arr` check); `l[i]?` models
JavaScript indexing, which yields `undefined` rather than throwing when out
of bounds. -/
def pickRandomElement {α : Type} (arr : Option (List α)) (rnd : ℚ) : Option α :=
  match arr with
  | none => none
  | some l =>
    if l.length = 0 then none
    else l[randomIndex rnd l.length]?

/-- Local component state of the admin page (`app/admin/page.tsx`) that the
action handlers read: the cached raffle record, the in-flight flag
`isLoading`, and the raw presence state.  `connectedUsers` models
`Object.values(connectedUsers)`: one list of presence entries per presence
key. -/
structure AdminState where
  raffleData : Option PublicData
  isLoading : Bool
  connectedUsers : List (List PresenceStateForUser)
deriving DecidableEq, Repr

/-- Derived `currentState = raffleData?.state ?? State.WAITING`. -/
def currentState (s : AdminState) : State :=
  (s.raffleData.map PublicData.state).getD State.WAITING

/-- Derived `userList`: `Object.values(connectedUsers).flat().map(e => e.user)`. -/
def userList (s : AdminState) : List String :=
  s.connectedUsers.flatten.map PresenceStateForUser.user

/-- Outcome of one admin handler invocation: the patch sent to the store via
`supabase.update`, if any, and the error message set by an early-return
branch, if any.  (The post-write failure path that reports `updateError`
happens after the write was issued and is not an early return.) -/
structure HandlerResult where
  write : Option StorePatch
  errorMsg : Option String
deriving DecidableEq, Repr

/-- `handleStartDraw`: silently return when loading or not in `WAITING`;
otherwise update the row to `{state: DRAWING, winner: null}`. -/
def handleStartDraw (s : AdminState) : HandlerResult :=
  if s.isLoading = true ∨ currentState s ≠ State.WAITING then ⟨none, none⟩
  else ⟨some ⟨State.DRAWING, none⟩, none⟩

/-- The error message of the unreachable-looking branch in `handlePickWinner`. -/
def noUsersMsg : String := "No users connected to pick a winner from."

/-- `handlePickWinner`: silently return when loading, not in `DRAWING`, or
the derived `userList` is empty; then pick `winnerId` from the same
`userList` value, take the `!winnerId` branch when the pick is JS-falsy
(undefined or `""`), and otherwise update the row to
`{state: DRAWN, winner: winnerId}`. -/
def handlePickWinner (s : AdminState) (rnd : ℚ) : HandlerResult :=
  if s.isLoading = true ∨ currentState s ≠ State.DRAWING ∨ (userList s).length = 0 then
    ⟨none, none⟩
  else
    let winnerId := pickRandomElement (some (userList s)) rnd
    if jsFalsyStr winnerId then ⟨none, some noUsersMsg⟩
    else ⟨some ⟨State.DRAWN, winnerId⟩, none⟩

/-- `handleResetRaffle`: silently return while loading; otherwise update the
row to `{state: WAITING, winner: null}` regardless of the current state. -/
def handleResetRaffle (s : AdminState) : HandlerResult :=
  if s.isLoading = true then ⟨none, none⟩
  else ⟨some ⟨State.WAITING, none⟩, none⟩

/-- Result of running `setupAdminSubscription` once: the admin's local record
view, the error banner, the store writes it issued, and whether the
`postgres_changes` subscription on the raffle channel was registered before
the routine returned. -/
structure AdminSetupResult where
  raffleData : Option PublicData
  errorMsg : Option String
  writes : List StorePatch
  subscribedToChanges : Bool
deriving DecidableEq, Repr

/-- `setupAdminSubscription` from `app/admin/page.tsx`.  `fetch` is the
outcome of the initial `select ... single()` (an error either from
`fetchError` or from missing data); `now` stands for
`new Date().toISOString()`.  On fetch failure the routine installs a local
`ERROR` placeholder row and returns before the channel — and hence the
`postgres_changes` subscription — is created; it never writes to the store. -/
def setupAdminSubscription (fetch : Except String PublicData) (now : String) :
    AdminSetupResult :=
  match fetch with
  | Except.error msg =>
    { raffleData := some ⟨RAFFLE_ID, now, State.ERROR, none⟩
      errorMsg := some ("Failed to fetch initial state: " ++ msg)
      writes := []
      subscribedToChanges := false }
  | Except.ok d =>
    { raffleData := some d
      errorMsg := none
      writes := []
      subscribedToChanges := true }

/-- The client page's local view: the `state` and `winner` React states of
`Home` in `app/page.tsx`. -/
structure ClientView where
  state : State
  winner : Option String
deriving DecidableEq, Repr

/-- The client's `postgres_changes` handler: one handler invocation sets both
fields from `payload.new`, ignoring the previous view entirely.  The handler
is a single event-loop turn, so no intermediate view is observable. -/
def applyClientChange : ClientView → PublicData → ClientView :=
  fun _ payload => ⟨payload.state, payload.winner⟩

/-- Database change-event types delivered by the bus. -/
inductive ChangeEventType where
  | INSERT
  | UPDATE
  | DELETE
deriving DecidableEq, Repr

/-- Result of the admin's `postgres_changes` handler: the new cached record
and the error banner it sets. -/
structure AdminChangeResult where
  raffleData : Option PublicData
  errorMsg : Option String
deriving DecidableEq, Repr

/-- The admin's `postgres_changes` handler: `UPDATE`/`INSERT` replace the
cached record wholesale with `payload.new`; `DELETE` installs an `ERROR`
placeholder and an error banner.  The previous cached record is never read. -/
def adminApplyChange (ev : ChangeEventType) (payloadNew : PublicData)
    (now : String) : AdminChangeResult :=
  match ev with
  | ChangeEventType.UPDATE => ⟨some payloadNew, none⟩
  | ChangeEventType.INSERT => ⟨some payloadNew, none⟩
  | ChangeEventType.DELETE =>
    ⟨some ⟨RAFFLE_ID, now, State.ERROR, none⟩,
     some "Raffle data (ID: 1) was deleted."⟩

/-! ## Helper lemmas -/

/-- The index `Math.floor(rnd * len)` is in bounds whenever `rnd < 1` and
the array is non-empty (for negative `rnd` the `toNat` clamp keeps it at 0). -/
lemma randomIndex_lt (rnd : ℚ) (n : Nat) (h1 : rnd < 1) (hn : 0 < n) :
    randomIndex rnd n < n := by
  unfold randomIndex
  have hfl : Int.floor (rnd * (n : ℚ)) < (n : ℤ) := by
    rw [Int.floor_lt]
    push_cast
    calc rnd * (n : ℚ) < 1 * (n : ℚ) :=
          mul_lt_mul_of_pos_right h1 (by exact_mod_cast hn)
      _ = (n : ℚ) := one_mul _
  omega

/-- On a non-empty list and an in-contract random draw, `pickRandomElement`
returns `some` element of the list. -/
lemma pickRandomElement_some_mem {α : Type} (l : List α) (rnd : ℚ)
    (hne : l ≠ []) (h1 : rnd < 1) :
    ∃ x, pickRandomElement (some l) rnd = some x ∧ x ∈ l := by
  have hn : 0 < l.length := List.length_pos.mpr hne
  have hidx : randomIndex rnd l.length < l.length := randomIndex_lt rnd l.length h1 hn
  refine ⟨l[randomIndex rnd l.length], ?_, List.getElem_mem hidx⟩
  show (if l.length = 0 then none else l[randomIndex rnd l.length]?) =
    some l[randomIndex rnd l.length]
  rw [if_neg (Nat.pos_iff_ne_zero.mp hn)]
  exact List.getElem?_eq_getElem hidx

/-- Success path of `handlePickWinner`: when not loading, in `DRAWING`, with a
non-empty captured `userList` of non-empty identifiers and an in-contract
random draw, the handler writes `{DRAWN, some w}` for the `w` picked from
that same captured list, and sets no error. -/
lemma handlePickWinner_success (s : AdminState) (rnd : ℚ)
    (hl : s.isLoading = false) (hs : currentState s = State.DRAWING)
    (hne : userList s ≠ []) (h1 : rnd < 1)
    (hstr : ∀ u ∈ userList s, u ≠ "") :
    ∃ w, pickRandomElement (some (userList s)) rnd = some w ∧ w ∈ userList s ∧
      handlePickWinner s rnd = ⟨some ⟨State.DRAWN, some w⟩, none⟩ := by
  obtain ⟨w, hpick, hmem⟩ := pickRandomElement_some_mem (userList s) rnd hne h1
  refine ⟨w, hpick, hmem, ?_⟩
  have hguard : ¬(s.isLoading = true ∨ currentState s ≠ State.DRAWING ∨
      (userList s).length = 0) := by
    simp [hl, hs, hne]
  have hfal : jsFalsyStr (some w) = false := by
    simp [jsFalsyStr, hstr w hmem]
  unfold handlePickWinner
  rw [if_neg hguard]
  simp only [hpick, hfal]
  simp

/-! ## Claim theorems -/

/-- C1: every store write issued by an admin transition handler satisfies the
record invariant — the written patch has a non-null `winner` iff its `state`
is `DRAWN`.  `handleStartDraw` writes `{DRAWING, null}`, `handleResetRaffle`
writes `{WAITING, null}`, and `handlePickWinner` writes `{DRAWN, w}` only
with a non-null `w`. -/
theorem C1_admin_writes_preserve_invariant (s : AdminState) (rnd : ℚ)
    (p : StorePatch)
    (h : (handleStartDraw s).write = some p ∨
         (handlePickWinner s rnd).write = some p ∨
         (handleResetRaffle s).write = some p) :
    p.winner ≠ none ↔ p.state = State.DRAWN := by
  rcases h with h | h | h
  · unfold handleStartDraw at h
    split at h
    · simp at h
    · simp only [Option.some.injEq] at h
      subst h
      simp
  · unfold handlePickWinner at h
    split at h
    · simp at h
    · simp only [] at h
      split at h
      · simp at h
      · rename_i hguard hfal
        simp only [Option.some.injEq] at h
        subst h
        simp only [ne_eq, Bool.not_eq_true] at hfal
        cases hw : pickRandomElement (some (userList s)) rnd with
        | none => rw [hw] at hfal; simp [jsFalsyStr] at hfal
        | some w => simp
  · unfold handleResetRaffle at h
    split at h
    · simp at h
    · simp only [Option.some.injEq] at h
      subst h
      simp

/-- Witness for C1: the patch written by `handleResetRaffle` from an empty
local cache satisfies the invariant. -/
theorem C1_admin_writes_preserve_invariant_witness :
    ((⟨State.WAITING, none⟩ : StorePatch).winner ≠ none ↔
      (⟨State.WAITING, none⟩ : StorePatch).state = State.DRAWN) :=
  C1_admin_writes_preserve_invariant ⟨none, false, []⟩ 0 ⟨State.WAITING, none⟩
    (Or.inr (Or.inr (by decide)))

/-- C2: `handleStartDraw` is a no-op (no store write, no error) whenever the
locally observed state is not `WAITING`; from `WAITING` with no request in
flight it writes exactly `{state: DRAWING, winner: null}`. -/
theorem C2_startDraw_guard (s : AdminState) :
    (currentState s ≠ State.WAITING → handleStartDraw s = ⟨none, none⟩) ∧
    (currentState s = State.WAITING → s.isLoading = false →
      (handleStartDraw s).write = some ⟨State.DRAWING, none⟩) := by
  constructor
  · intro h
    unfold handleStartDraw
    rw [if_pos (Or.inr h)]
  · intro hw hl
    unfold handleStartDraw
    rw [if_neg (by simp [hl, hw])]

/-- Witness for C2: rejected from `DRAWN`, accepted from `WAITING`. -/
theorem C2_startDraw_guard_witness :
    handleStartDraw ⟨some ⟨1, "t", State.DRAWN, some "w"⟩, false, []⟩ = ⟨none, none⟩ ∧
    (handleStartDraw ⟨some ⟨1, "t", State.WAITING, none⟩, false, []⟩).write =
      some ⟨State.DRAWING, none⟩ :=
  ⟨(C2_startDraw_guard _).1 (by decide), (C2_startDraw_guard _).2 rfl rfl⟩

/-- C9: while a request is in flight (`isLoading = true`) every admin
transition handler returns without issuing any store write. -/
theorem C9_inflight_requests_rejected (s : AdminState) (rnd : ℚ)
    (h : s.isLoading = true) :
    handleStartDraw s = ⟨none, none⟩ ∧ handlePickWinner s rnd = ⟨none, none⟩ ∧
    handleResetRaffle s = ⟨none, none⟩ := by
  refine ⟨?_, ?_, ?_⟩
  · unfold handleStartDraw
    rw [if_pos (Or.inl h)]
  · unfold handlePickWinner
    rw [if_pos (Or.inl h)]
  · unfold handleResetRaffle
    rw [if_pos h]

/-- Witness for C9 at a loading admin state in `DRAWING` with one user. -/
theorem C9_inflight_requests_rejected_witness :
    handleStartDraw ⟨some ⟨1, "t", State.DRAWING, none⟩, true, [[⟨"a", "t", "r"⟩]]⟩
      = ⟨none, none⟩ ∧
    handlePickWinner ⟨some ⟨1, "t", State.DRAWING, none⟩, true, [[⟨"a", "t", "r"⟩]]⟩ 0
      = ⟨none, none⟩ ∧
    handleResetRaffle ⟨some ⟨1, "t", State.DRAWING, none⟩, true, [[⟨"a", "t", "r"⟩]]⟩
      = ⟨none, none⟩ :=
  C9_inflight_requests_rejected ⟨some ⟨1, "t", State.DRAWING, none⟩, true,
    [[⟨"a", "t", "r"⟩]]⟩ 0 rfl

/-- C3 as stated is false on the code: with the state `DRAWING` and a
non-empty presence snapshot, the handler still writes nothing when a request
is already in flight, and also when the picked identifier is the empty
string (which the JavaScript `!winnerId` test treats as "no users"). -/
theorem C3_pickWinner_claim_counterexample :
    (handlePickWinner ⟨some ⟨1, "t", State.DRAWING, none⟩, true,
        [[⟨"a", "t", "r"⟩]]⟩ 0).write = none ∧
    (handlePickWinner ⟨some ⟨1, "t", State.DRAWING, none⟩, false,
        [[⟨"", "t", "r"⟩]]⟩ 0).write = none := by
  constructor <;>
    simp [handlePickWinner, currentState, userList, pickRandomElement,
      randomIndex, jsFalsyStr]

/-- C3 (amended): `handlePickWinner` is a no-op whenever the observed state
is not `DRAWING` or the captured `userList` is empty; when the state is
`DRAWING`, the snapshot is non-empty, no request is in flight, the random
draw is in `[0, 1)`, and every captured identifier is a non-empty string, it
writes exactly `{state: DRAWN, winner: <picked id>}`. -/
theorem C3_pickWinner_guard (s : AdminState) (rnd : ℚ) :
    ((currentState s ≠ State.DRAWING ∨ userList s = []) →
      handlePickWinner s rnd = ⟨none, none⟩) ∧
    (s.isLoading = false → currentState s = State.DRAWING → userList s ≠ [] →
      0 ≤ rnd → rnd < 1 → (∀ u ∈ userList s, u ≠ "") →
      ∃ w, w ∈ userList s ∧
        handlePickWinner s rnd = ⟨some ⟨State.DRAWN, some w⟩, none⟩) := by
  constructor
  · intro h
    unfold handlePickWinner
    rw [if_pos]
    rcases h with h | h
    · exact Or.inr (Or.inl h)
    · exact Or.inr (Or.inr (by simp [h]))
  · intro hl hs hne h0 h1 hstr
    obtain ⟨w, _, hmem, heq⟩ := handlePickWinner_success s rnd hl hs hne h1 hstr
    exact ⟨w, hmem, heq⟩

/-- Witness for C3: rejected from `WAITING`; from `DRAWING` with one user
`"a"` and draw `0` it writes `{DRAWN, some "a"}`. -/
theorem C3_pickWinner_guard_witness :
    handlePickWinner ⟨some ⟨1, "t", State.WAITING, none⟩, false,
      [[⟨"a", "t", "r"⟩]]⟩ 0 = ⟨none, none⟩ ∧
    ∃ w, w ∈ userList ⟨some ⟨1, "t", State.DRAWING, none⟩, false,
        [[⟨"a", "t", "r"⟩]]⟩ ∧
      handlePickWinner ⟨some ⟨1, "t", State.DRAWING, none⟩, false,
        [[⟨"a", "t", "r"⟩]]⟩ 0 = ⟨some ⟨State.DRAWN, some w⟩, none⟩ :=
  ⟨(C3_pickWinner_guard _ 0).1 (Or.inl (by decide)),
   (C3_pickWinner_guard _ 0).2 rfl rfl (by decide) (le_refl 0) zero_lt_one
     (by decide)⟩

/-- C4 as stated is false on the code: with a captured snapshot `[""]` the
guard passes (state `DRAWING`, non-empty list, not loading), the pick
returns `""` from that list, yet the JavaScript-falsy `!winnerId` test sends
the handler into the "no users connected" error branch and nothing is
written — so that branch is reachable after a passed guard. -/
theorem C4_pick_snapshot_counterexample :
    (handlePickWinner ⟨some ⟨1, "t", State.DRAWING, none⟩, false,
        [[⟨"", "t", "r"⟩]]⟩ 0).errorMsg = some noUsersMsg ∧
    userList ⟨some ⟨1, "t", State.DRAWING, none⟩, false,
      [[⟨"", "t", "r"⟩]]⟩ ≠ [] := by
  constructor
  · simp [handlePickWinner, currentState, userList, pickRandomElement,
      randomIndex, jsFalsyStr]
  · decide

/-- C4 (amended): the emptiness check and the pick operate on the same
captured `userList` value, so when the guard passes (and every captured
identifier is a non-empty string, with the draw in `[0, 1)`) the pick
returns an element of that same captured list, the handler writes it, and
the "no users connected" error branch is not taken. -/
theorem C4_pick_uses_captured_snapshot (s : AdminState) (rnd : ℚ)
    (hl : s.isLoading = false) (hs : currentState s = State.DRAWING)
    (hne : userList s ≠ []) (h0 : 0 ≤ rnd) (h1 : rnd < 1)
    (hstr : ∀ u ∈ userList s, u ≠ "") :
    ∃ w, pickRandomElement (some (userList s)) rnd = some w ∧ w ∈ userList s ∧
      (handlePickWinner s rnd).errorMsg = none ∧
      (handlePickWinner s rnd).write = some ⟨State.DRAWN, some w⟩ := by
  obtain ⟨w, hpick, hmem, heq⟩ := handlePickWinner_success s rnd hl hs hne h1 hstr
  exact ⟨w, hpick, hmem, by rw [heq], by rw [heq]⟩

/-- Witness for C4 with two connected users and draw `0`. -/
theorem C4_pick_uses_captured_snapshot_witness :
    ∃ w, pickRandomElement (some (userList ⟨some ⟨1, "t", State.DRAWING, none⟩,
        false, [[⟨"u1", "t", "r1"⟩], [⟨"u2", "t", "r2"⟩]]⟩)) 0 = some w ∧
      w ∈ userList ⟨some ⟨1, "t", State.DRAWING, none⟩, false,
        [[⟨"u1", "t", "r1"⟩], [⟨"u2", "t", "r2"⟩]]⟩ ∧
      (handlePickWinner ⟨some ⟨1, "t", State.DRAWING, none⟩, false,
        [[⟨"u1", "t", "r1"⟩], [⟨"u2", "t", "r2"⟩]]⟩ 0).errorMsg = none ∧
      (handlePickWinner ⟨some ⟨1, "t", State.DRAWING, none⟩, false,
        [[⟨"u1", "t", "r1"⟩], [⟨"u2", "t", "r2"⟩]]⟩ 0).write =
        some ⟨State.DRAWN, some w⟩ :=
  C4_pick_uses_captured_snapshot _ 0 rfl rfl (by decide) (le_refl 0)
    zero_lt_one (by decide)

/-- C5: on every non-empty candidate list and in-contract random draw,
`pickRandomElement` returns an element of that list. -/
theorem C5_pickRandomElement_mem (l : List String) (rnd : ℚ)
    (hne : l ≠ []) (h0 : 0 ≤ rnd) (h1 : rnd < 1) :
    ∃ x, pickRandomElement (some l) rnd = some x ∧ x ∈ l :=
  pickRandomElement_some_mem l rnd hne h1

/-- Witness for C5 on the list `["a", "b", "c"]` with draw `0`. -/
theorem C5_pickRandomElement_mem_witness :
    ∃ x, pickRandomElement (some ["a", "b", "c"]) 0 = some x ∧
      x ∈ ["a", "b", "c"] :=
  C5_pickRandomElement_mem ["a", "b", "c"] 0 (by decide) (le_refl 0)
    zero_lt_one

/-- C6: with no request in flight, `handleResetRaffle` writes exactly
`{state: WAITING, winner: null}`, whatever the prior state — the right-hand
side is a constant, so the written patch does not depend on it. -/
theorem C6_reset_writes_waiting (s : AdminState) (h : s.isLoading = false) :
    handleResetRaffle s = ⟨some ⟨State.WAITING, none⟩, none⟩ := by
  unfold handleResetRaffle
  rw [if_neg (by simp [h])]

/-- Witness for C6 from each of the four states. -/
theorem C6_reset_writes_waiting_witness :
    handleResetRaffle ⟨some ⟨1, "t", State.WAITING, none⟩, false, []⟩
      = ⟨some ⟨State.WAITING, none⟩, none⟩ ∧
    handleResetRaffle ⟨some ⟨1, "t", State.DRAWING, none⟩, false, []⟩
      = ⟨some ⟨State.WAITING, none⟩, none⟩ ∧
    handleResetRaffle ⟨some ⟨1, "t", State.DRAWN, some "w"⟩, false, []⟩
      = ⟨some ⟨State.WAITING, none⟩, none⟩ ∧
    handleResetRaffle ⟨some ⟨1, "t", State.ERROR, none⟩, false, []⟩
      = ⟨some ⟨State.WAITING, none⟩, none⟩ :=
  ⟨C6_reset_writes_waiting _ rfl, C6_reset_writes_waiting _ rfl,
   C6_reset_writes_waiting _ rfl, C6_reset_writes_waiting _ rfl⟩

/-- C7 as stated is false on the code: after a failed initial fetch,
`setupAdminSubscription` returns before the raffle channel is created, so
the `postgres_changes` subscription is never registered and subsequent
change-events are not received by this admin session. -/
theorem C7_fetch_fail_claim_counterexample :
    (setupAdminSubscription (Except.error "network down")
        "2026-01-01T00:00:00.000Z").subscribedToChanges = false := by
  decide

/-- C7 (amended): if the admin's initial fetch fails, the admin view is set
to the local `ERROR` placeholder record, an error banner is shown, no write
to the shared record is issued — and setup stops there, so no change-event
subscription is registered by this run. -/
theorem C7_fetch_fail_behavior (msg now : String) :
    setupAdminSubscription (Except.error msg) now =
      ⟨some ⟨RAFFLE_ID, now, State.ERROR, none⟩,
       some ("Failed to fetch initial state: " ++ msg), [], false⟩ :=
  rfl

/-- C8: a delivered change-event replaces both local fields wholesale with
the payload's values, for any prior view — in particular delivering
`{DRAWN, "p42"}` to a view at `{DRAWING, null}` yields exactly that pair —
and the admin handler likewise replaces its cached record with
`payload.new` on `UPDATE`/`INSERT`.  Each handler is a single pure step, so
no intermediate view with `state = DRAWN` and `winner = null` exists. -/
theorem C8_change_event_wholesale_apply :
    (∀ (prev : ClientView) (p : PublicData),
      applyClientChange prev p = ⟨p.state, p.winner⟩) ∧
    applyClientChange ⟨State.DRAWING, none⟩ ⟨RAFFLE_ID, "t", State.DRAWN, some "p42"⟩
      = ⟨State.DRAWN, some "p42"⟩ ∧
    (∀ (p : PublicData) (now : String),
      adminApplyChange ChangeEventType.UPDATE p now = ⟨some p, none⟩ ∧
      adminApplyChange ChangeEventType.INSERT p now = ⟨some p, none⟩) :=
  ⟨fun _ _ => rfl, rfl, fun _ _ => ⟨rfl, rfl⟩⟩

/-- C10: `pickRandomElement` is total at its interface: a null/undefined or
empty array yields `undefined`, and for a non-empty array with an
in-contract random draw the computed index is within the array's bounds. -/
theorem C10_pickRandomElement_total (rnd : ℚ) :
    pickRandomElement (none : Option (List String)) rnd = none ∧
    pickRandomElement (some ([] : List String)) rnd = none ∧
    (∀ l : List String, l ≠ [] → 0 ≤ rnd → rnd < 1 →
      randomIndex rnd l.length < l.length) := by
  refine ⟨rfl, rfl, ?_⟩
  intro l hne h0 h1
  exact randomIndex_lt rnd l.length h1 (List.length_pos.mpr hne)

/-- Witness for C10 at draw `0` and the singleton list `["a"]`. -/
theorem C10_pickRandomElement_total_witness :
    pickRandomElement (none : Option (List String)) 0 = none ∧
    pickRandomElement (some ([] : List String)) 0 = none ∧
    randomIndex 0 (["a"] : List String).length < (["a"] : List String).length :=
  ⟨(C10_pickRandomElement_total 0).1, (C10_pickRandomElement_total 0).2.1,
   (C10_pickRandomElement_total 0).2.2 ["a"] (by decide) (le_refl 0)
     zero_lt_one⟩

end JpcsRaffle
